import Mathlib

set_option autoImplicit false

namespace Elyra

/-!
Shallow embedding of the client-side behavior layer of the Elyra Premium
Seaters site: the rate limiter and input validators of security.js, the
savings calculator of calculator.js, and the form handler and navigation
system of forms.js.  Machine state (the rate-limit `Map`, DOM attributes,
the navigation system's fields) is passed explicitly; JavaScript exceptions
are modelled with `Except`.
-/

/-! ### Rate limiter (`SecurityFramework.checkRateLimit`, security.js 59-95)

The JavaScript `Map` is modelled as an insertion-ordered association list
with unique keys; `Map.get` reads the first binding, `Map.set` on a present
key updates it in place, on an absent key appends, and the for-of cleanup
loop that deletes stale entries is a filter. -/

structure RLEntry where
  count : Nat
  timestamp : Int
deriving DecidableEq

abbrev RLStore := List (String × RLEntry)

/-- The cleanup loop at the top of `checkRateLimit`: delete every entry whose
`timestamp` is strictly below `now - 60000`. -/
def rlSweep (now : Int) (store : RLStore) : RLStore :=
  store.filter (fun e => !decide (e.2.timestamp < now - 60000))

/-- `Map.get`: the value of the first binding of `key`, if any. -/
def rlLookup (key : String) : RLStore → Option RLEntry
  | [] => none
  | e :: es => if e.1 = key then some e.2 else rlLookup key es

/-- `Map.set` on a key already present: replace the first binding in place. -/
def rlUpdate (key : String) (v : RLEntry) : RLStore → RLStore
  | [] => []
  | e :: es => if e.1 = key then (e.1, v) :: es else e :: rlUpdate key v es

/-- `SecurityFramework.checkRateLimit(key, maxRequests)` (security.js 67-95):
sweep out entries older than the 60-second window, then admit-and-count.
Returns the boolean result together with the store after the call. -/
def checkRateLimit (store : RLStore) (now : Int) (key : String)
    (maxRequests : Nat) : Bool × RLStore :=
  let store1 := rlSweep now store
  match rlLookup key store1 with
  | none => (true, store1 ++ [(key, ⟨1, now⟩)])
  | some existing =>
    if existing.count ≥ maxRequests then
      (false, store1)
    else
      (true, rlUpdate key ⟨existing.count + 1, now⟩ store1)

/-! ### Savings calculator (`Calculator.calculateSavings`, calculator.js 123-154)

The JavaScript numbers in play are within exact double range; they are
modelled as rationals. -/

structure CalcInputs where
  dieselCost : ℚ
  monthlyKm : ℚ
  vehicleCount : ℚ
  ppaModel : String

structure CalcResults where
  currentMonthlyCost : ℚ
  newMonthlyCost : ℚ
  monthlySavings : ℚ
  savingsPercent : ℚ
  annualSavings : ℚ
deriving DecidableEq

def calculateSavings (i : CalcInputs) : CalcResults :=
  let currentMonthlyCost := i.dieselCost * i.vehicleCount
  let newMonthlyCost :=
    if i.ppaModel = "exchange" then 120000 * i.vehicleCount
    else if i.ppaModel = "traditional" then
      95000 * i.vehicleCount + 14 * i.monthlyKm * i.vehicleCount
    else if i.ppaModel = "lease" then 175000 * i.vehicleCount
    else currentMonthlyCost
  let monthlySavings := currentMonthlyCost - newMonthlyCost
  let savingsPercent :=
    if monthlySavings > 0 then monthlySavings / currentMonthlyCost * 100 else 0
  let annualSavings := monthlySavings * 12
  ⟨currentMonthlyCost, newMonthlyCost, monthlySavings, savingsPercent,
    annualSavings⟩

/-- The percentage value shown by `Calculator.displayResults`
(calculator.js 160): `Math.max(0, results.savingsPercent)`; the `toFixed`
string formatting is not modelled. -/
def displayedSavingsPercent (r : CalcResults) : ℚ :=
  max 0 r.savingsPercent

/-- Range predicate enforced by `Calculator.getValidatedInputs`
(calculator.js 79-90). -/
def validCalcInputs (i : CalcInputs) : Prop :=
  50000 ≤ i.dieselCost ∧ i.dieselCost ≤ 1000000 ∧
  100 ≤ i.monthlyKm ∧ i.monthlyKm ≤ 10000 ∧
  1 ≤ i.vehicleCount ∧ i.vehicleCount ≤ 50 ∧
  (i.ppaModel = "exchange" ∨ i.ppaModel = "traditional" ∨ i.ppaModel = "lease")

/-! ### Form handler (`FormHandler`, forms.js 117-156 and 270-282) -/

structure ButtonState where
  disabled : Bool
  ariaDisabled : Bool
  text : String
  loading : Bool
deriving DecidableEq

/-- `FormHandler.setLoadingState(button, isLoading, originalText)`
(forms.js 270-282). -/
def setLoadingState (b : ButtonState) (isLoading : Bool)
    (originalText : String) : ButtonState :=
  if isLoading then
    { b with disabled := true, ariaDisabled := true, text := "Sending...",
             loading := true }
  else
    { b with disabled := false, ariaDisabled := false, text := originalText,
             loading := false }

/-- Outcome of the body of the `try` block of `handleFormSubmission`: the
awaited simulated submission resolved, or it rejected / something thrown
inside the `try` landed in the `catch`. -/
inductive SubmitOutcome
  | success
  | failure (message : String)

structure FormUI where
  button : ButtonState
  notification : Option String
  formWasReset : Bool
deriving DecidableEq

/-- `FormHandler.handleFormSubmission(form)` (forms.js 117-156).  The rate
limit check and the aggregate field validation are the two early returns;
past them the submit control enters the loading state, the try/catch picks
the notification from `outcome`, and the `finally` always runs
`setLoadingState(submitButton, false, originalText)` with the text captured
before loading. -/
def handleFormSubmission (rateLimitOk : Bool) (fieldsValid : Bool)
    (outcome : SubmitOutcome) (ui : FormUI) : FormUI :=
  if !rateLimitOk then
    { ui with notification := some "Please wait before submitting another form" }
  else if !fieldsValid then
    { ui with notification := some "Please fix the errors in the form before submitting" }
  else
    let originalText := ui.button.text
    let ui1 := { ui with button := setLoadingState ui.button true originalText }
    let ui2 :=
      match outcome with
      | SubmitOutcome.success =>
        { ui1 with
          notification := some "Thank you! We have received your inquiry and will contact you within 24 hours.",
          formWasReset := true }
      | SubmitOutcome.failure _ =>
        { ui1 with
          notification := some "Sorry, there was an error sending your message. Please try again or contact us directly." }
    { ui2 with button := setLoadingState ui2.button false originalText }

/-! ### Navigation system (`NavigationSystem`, forms.js 335-533)

The document state carries the pieces the navigation system mutates: the
address fragment, the main content region, the highlighted nav link, the
page coordinators whose constructors registered document-level listeners,
and the console error log. -/

inductive Coordinator
  | calculatorC
  | formHandlerC
deriving DecidableEq

structure DocState where
  hash : String
  mainContent : String
  activeNavPage : String
  coordinators : List Coordinator
  errorLog : List String
deriving DecidableEq

structure NavState where
  currentPage : String
  doc : DocState
deriving DecidableEq

/-- The closed page set of `NavigationSystem.isValidPage` (forms.js 430-433). -/
def validPages : List String :=
  ["home", "solutions", "models", "calculator", "contact"]

def isValidPage (page : String) : Bool :=
  validPages.contains page

/-- `NavigationSystem.generateHomePage` (forms.js 503-530).  The hero markup
string is abbreviated to a marker; no claim depends on the literal text,
only on which page the shown content belongs to. -/
def generateHomePage : String := "page:home"

/-- Modelled from the spec: `generateSolutionsPage` is called by
`generatePageContent` but defined nowhere in the repository (forms.js 532
says the other generators "will follow similar pattern"); per the spec the
PageContentProvider, given a page key, produces markup for that page and
owns no state. -/
def generateSolutionsPage : String := "page:solutions"

/-- Modelled from the spec: `generateModelsPage` is called by
`generatePageContent` but defined nowhere in the repository; content
provider for the models page. -/
def generateModelsPage : String := "page:models"

/-- Modelled from the spec: `generateCalculatorPage` is called by
`generatePageContent` but defined nowhere in the repository; content
provider for the calculator page. -/
def generateCalculatorPage : String := "page:calculator"

/-- Modelled from the spec: `generateContactPage` is called by
`generatePageContent` but defined nowhere in the repository; content
provider for the contact page. -/
def generateContactPage : String := "page:contact"

/-- `NavigationSystem.generatePageContent(page)` (forms.js 449-459): the
template map with the `|| generateHomePage()` fallback for unknown keys. -/
def generatePageContent (page : String) : String :=
  if page = "home" then generateHomePage
  else if page = "solutions" then generateSolutionsPage
  else if page = "models" then generateModelsPage
  else if page = "calculator" then generateCalculatorPage
  else if page = "contact" then generateContactPage
  else generateHomePage

/-- `NavigationSystem.initializePageFunctionality(page)` (forms.js 461-474):
`new Calculator()` for the calculator page, `new FormHandler()` for the
contact page (both classes exist, so the `typeof` guards pass).  Each
construction registers a fresh coordinator with document-level listeners;
no code path ever removes one. -/
def initializePageFunctionality (page : String) (s : NavState) : NavState :=
  if page = "calculator" then
    { s with doc := { s.doc with
        coordinators := s.doc.coordinators ++ [Coordinator.calculatorC] } }
  else if page = "contact" then
    { s with doc := { s.doc with
        coordinators := s.doc.coordinators ++ [Coordinator.formHandlerC] } }
  else s

/-- Modelled from the spec: `loadErrorPage` is called by the catch of
`loadPageContent` (forms.js 445) but defined nowhere in the repository; the
spec failure semantics says the Router "falls back to rendering the `home`
page content". -/
def loadErrorPage (s : NavState) : NavState :=
  { s with doc := { s.doc with mainContent := generateHomePage } }

/-- `NavigationSystem.loadPageContent(page)` (forms.js 435-447),
parametrized by the content generator so that a throwing generator is
statable; the repository wiring is `genOk` below.  On success the main
region receives the content and the page coordinator is initialized; on a
throw the failure is logged (`console.error`) and `loadErrorPage` runs. -/
def loadPageContent (gen : String → Except Unit String) (page : String)
    (s : NavState) : NavState :=
  match gen page with
  | Except.ok content =>
    initializePageFunctionality page
      { s with doc := { s.doc with mainContent := content } }
  | Except.error _ =>
    loadErrorPage
      { s with doc := { s.doc with
          errorLog := s.doc.errorLog ++ ["Error loading page content"] } }

/-- `NavigationSystem.updateActiveNav(page)` (forms.js 476-481): the link
whose `data-page` equals `page` becomes current, all others not current. -/
def updateActiveNav (page : String) (s : NavState) : NavState :=
  { s with doc := { s.doc with activeNavPage := page } }

/-- `NavigationSystem.navigateTo(page)` (forms.js 419-428): coerce an
invalid key to `home`, set `currentPage` and the address fragment, load the
content, update the nav highlighting. -/
def navigateTo (gen : String → Except Unit String) (page : String)
    (s : NavState) : NavState :=
  let p := if isValidPage page then page else "home"
  let s1 : NavState :=
    { s with currentPage := p, doc := { s.doc with hash := p } }
  updateActiveNav p (loadPageContent gen p s1)

/-- The content generator actually wired in the repository: total, because
the only failure sources would be the spec-modelled page providers. -/
def genOk : String → Except Unit String :=
  fun p => Except.ok (generatePageContent p)

/-- A generator that throws exactly on the contact page; used to exercise
the failure path of `loadPageContent`. -/
def genFailContact : String → Except Unit String :=
  fun p => if p = "contact" then Except.error () else Except.ok (generatePageContent p)

/-- State at `NavigationSystem` construction (forms.js 336-340):
`currentPage` starts as `home`, nothing rendered yet. -/
def initNavState : NavState :=
  { currentPage := "home",
    doc := { hash := "", mainContent := "", activeNavPage := "",
             coordinators := [], errorLog := [] } }

/-- The coordinator demanded by a page key: `FormHandler` for contact,
`Calculator` for calculator, none otherwise. -/
def coordFor (page : String) : List Coordinator :=
  if page = "calculator" then [Coordinator.calculatorC]
  else if page = "contact" then [Coordinator.formHandlerC]
  else []

/-! ### Input validators (`InputValidator`, security.js 132-167)

Arguments are modelled as JavaScript values so that behavior on non-string
input is statable; a thrown `TypeError` is `Except.error`. -/

inductive JSValue
  | str (s : String)
  | num (n : Int)
  | jsBool (b : Bool)
  | jsNull
  | jsUndefined

/-- `typeof v === "string"`. -/
def isStringValue : JSValue → Bool
  | JSValue.str _ => true
  | _ => false

/-- String coercion `String(v)` as performed by `RegExp.test` on a
non-string argument (integer numbers print as their digits). -/
def jsToString : JSValue → String
  | JSValue.str s => s
  | JSValue.num n => toString n
  | JSValue.jsBool b => if b then "true" else "false"
  | JSValue.jsNull => "null"
  | JSValue.jsUndefined => "undefined"

def isAsciiLetter (c : Char) : Bool :=
  (decide ('a' ≤ c) && decide (c ≤ 'z')) ||
  (decide ('A' ≤ c) && decide (c ≤ 'Z'))

def isAsciiDigit (c : Char) : Bool :=
  decide ('0' ≤ c) && decide (c ≤ '9')

def isAlnumChar (c : Char) : Bool :=
  isAsciiLetter c || isAsciiDigit c

/-- The ASCII part of the JavaScript `\s` class: space, tab, line feed,
carriage return, vertical tab, form feed.  (The Unicode space members never
occur in the inputs the claims are about.) -/
def isJsSpace (c : Char) : Bool :=
  decide (c = ' ') || decide (c = '\t') || decide (c = '\n') ||
  decide (c = '\r') || decide (c = '\x0b') || decide (c = '\x0c')

/-- JavaScript `String.prototype.trim`. -/
def jsTrim (l : List Char) : List Char :=
  ((l.dropWhile isJsSpace).reverse.dropWhile isJsSpace).reverse

/-- A character admitted in the local part of the email regular expression
of `validateEmail` (security.js 134). -/
def emailLocalChar (c : Char) : Bool :=
  isAlnumChar c || ".!#$%&\x27*+/=?^_\x60\x7b|\x7d~-".toList.contains c

/-- One domain label of the email regular expression:
alphanumeric, or alphanumeric then up to 61 alphanumeric-or-hyphen
characters then alphanumeric. -/
def emailLabel : List Char → Bool
  | [] => false
  | [c] => isAlnumChar c
  | c :: rest =>
    isAlnumChar c && decide (rest.length ≤ 62) &&
    rest.dropLast.all (fun x => isAlnumChar x || decide (x = '-')) &&
    (match rest.getLast? with
     | some z => isAlnumChar z
     | none => false)

/-- The anchored email regular expression of security.js 134.  Neither side
of the pattern admits `@` and labels do not admit dots, so the match
decomposes as: exactly one `@`, a nonempty local part over the local
character set, and dot-separated valid labels. -/
def emailRegexTest (s : String) : Bool :=
  match s.splitOn "@" with
  | [lp, dp] =>
    !lp.isEmpty && lp.toList.all emailLocalChar &&
    (dp.splitOn ".").all (fun l => emailLabel l.toList)
  | _ => false

/-- `InputValidator.validateEmail(email)` (security.js 133-136):
`RegExp.test` coerces its argument to a string and never throws. -/
def validateEmail (v : JSValue) : Except String Bool :=
  Except.ok (emailRegexTest (jsToString v))

/-- The mandatory tail of the phone regular expression of security.js 140:
a character in `[17]` then exactly eight digits. -/
def phoneCore (l : List Char) : Bool :=
  match l with
  | c :: rest =>
    (decide (c = '1') || decide (c = '7')) && decide (rest.length = 8) &&
    rest.all isAsciiDigit
  | [] => false

/-- The anchored phone regular expression `(\+?254|0)?[17]\d{8}` as a
disjunction over the four possible optional-prefix shapes. -/
def phoneRegexTest (l : List Char) : Bool :=
  (match l with
   | '+' :: '2' :: '5' :: '4' :: rest => phoneCore rest
   | _ => false) ||
  (match l with
   | '2' :: '5' :: '4' :: rest => phoneCore rest
   | _ => false) ||
  (match l with
   | '0' :: rest => phoneCore rest
   | _ => false) ||
  phoneCore l

/-- `InputValidator.validatePhone(phone)` (security.js 138-141): the body
runs `phone.replace(/\s/g, "")` before any type check, so a non-string
argument throws a `TypeError`; on a string the whitespace is stripped and
the regular expression tested. -/
def validatePhone (v : JSValue) : Except String Bool :=
  match v with
  | JSValue.str s =>
    Except.ok (phoneRegexTest (s.toList.filter (fun c => !isJsSpace c)))
  | _ => Except.error "TypeError: phone.replace is not a function"

/-- A character admitted by the name regular expression `[a-zA-Z\s\-\x27]+`
of security.js 148. -/
def nameChar (c : Char) : Bool :=
  isAsciiLetter c || isJsSpace c || decide (c = '-') ||
  decide (c = Char.ofNat 39)

/-- `InputValidator.validateName(name)` (security.js 144-149): the
`typeof` check short-circuits first, so non-strings yield `false` and
nothing throws; the length bounds are on the trimmed string, the character
test on the raw string. -/
def validateName (v : JSValue) : Except String Bool :=
  match v with
  | JSValue.str s =>
    Except.ok (decide (2 ≤ (jsTrim s.toList).length) &&
      decide ((jsTrim s.toList).length ≤ 50) &&
      !s.toList.isEmpty && s.toList.all nameChar)
  | _ => Except.ok false

/-- The per-character entity substitution of `sanitizeInput`
(security.js 154-160).  The five sequential `replace` calls equal a single
pass because no replacement output contains a character replaced later. -/
def sanitizeChar (c : Char) : String :=
  if c = '<' then "&lt;"
  else if c = '>' then "&gt;"
  else if c = '"' then "&quot;"
  else if c = Char.ofNat 39 then "&#x27;"
  else if c = '/' then "&#x2F;"
  else String.singleton c

/-- `InputValidator.sanitizeInput(input)` (security.js 151-161): the
`typeof` guard returns `""` for non-strings, otherwise trim then entity
substitution; never throws. -/
def sanitizeInput (v : JSValue) : Except String String :=
  match v with
  | JSValue.str s =>
    Except.ok (String.join ((jsTrim s.toList).map sanitizeChar))
  | _ => Except.ok ""

/-! ### Concrete stores for the rate-limit window walk-through -/

def rlS1 : RLStore := (checkRateLimit [] 0 "k" 3).2

def rlS2 : RLStore := (checkRateLimit rlS1 1000 "k" 3).2

def rlS3 : RLStore := (checkRateLimit rlS2 2000 "k" 3).2

def rlS4 : RLStore := (checkRateLimit rlS3 3000 "k" 3).2

/-! ### Helper lemmas -/

@[simp]
theorem currentPage_updateActiveNav (page : String) (s : NavState) :
    (updateActiveNav page s).currentPage = s.currentPage := rfl

@[simp]
theorem coordinators_updateActiveNav (page : String) (s : NavState) :
    (updateActiveNav page s).doc.coordinators = s.doc.coordinators := rfl

@[simp]
theorem currentPage_initializePageFunctionality (page : String) (s : NavState) :
    (initializePageFunctionality page s).currentPage = s.currentPage := by
  unfold initializePageFunctionality
  by_cases h1 : page = "calculator" <;> by_cases h2 : page = "contact" <;>
    simp [h1, h2]

theorem coordinators_initializePageFunctionality (page : String) (s : NavState) :
    (initializePageFunctionality page s).doc.coordinators =
      s.doc.coordinators ++ coordFor page := by
  unfold initializePageFunctionality coordFor
  by_cases h1 : page = "calculator" <;> by_cases h2 : page = "contact" <;>
    simp [h1, h2]

@[simp]
theorem currentPage_loadErrorPage (s : NavState) :
    (loadErrorPage s).currentPage = s.currentPage := rfl

@[simp]
theorem currentPage_loadPageContent (gen : String → Except Unit String)
    (page : String) (s : NavState) :
    (loadPageContent gen page s).currentPage = s.currentPage := by
  unfold loadPageContent
  cases gen page <;> simp

theorem navigateTo_currentPage (gen : String → Except Unit String)
    (page : String) (s : NavState) :
    (navigateTo gen page s).currentPage =
      (if isValidPage page then page else "home") := by
  unfold navigateTo
  simp

/-! ### Claim C1 -/

/-- Claim C1: for every requested key outside the closed page set, whatever
the content generator and the starting state, `navigateTo` sets
`currentPage` to `home`; the invalid target is coerced, never rejected. -/
theorem navigateTo_invalid_coerces_home (gen : String → Except Unit String)
    (s : NavState) (page : String) (h : isValidPage page = false) :
    (navigateTo gen page s).currentPage = "home" := by
  rw [navigateTo_currentPage, h]
  simp

/-- Witness for C1 at the concrete invalid key `pricing`. -/
theorem navigateTo_invalid_coerces_home_witness :
    isValidPage "pricing" = false ∧
    (navigateTo genOk "pricing" initNavState).currentPage = "home" :=
  ⟨by decide,
   navigateTo_invalid_coerces_home genOk initNavState "pricing" (by decide)⟩

/-! ### Claim C2 -/

/-- Counterexample to claim C2: from the initial state, two consecutive
`navigateTo("contact")` calls leave two mounted `FormHandler` coordinators,
not exactly one; the first one is never deactivated. -/
theorem navigateTo_double_contact_two_coordinators :
    (navigateTo genOk "contact"
        (navigateTo genOk "contact" initNavState)).doc.coordinators =
      [Coordinator.formHandlerC, Coordinator.formHandlerC] ∧
    (navigateTo genOk "contact"
        (navigateTo genOk "contact" initNavState)).doc.coordinators.length ≠ 1 := by
  constructor
  · rfl
  · decide

/-- Claim C2 as amended: mounted coordinators are never deactivated; each
successful navigation appends the coordinator demanded by the (coerced)
target key to those already mounted, so same-key navigations accumulate
coordinators instead of keeping exactly one. -/
theorem navigateTo_coordinators_accumulate (s : NavState) (page : String) :
    (navigateTo genOk page s).doc.coordinators =
      s.doc.coordinators ++ coordFor (if isValidPage page then page else "home") := by
  unfold navigateTo genOk loadPageContent
  simp [coordinators_initializePageFunctionality]

/-! ### Claim C3 -/

/-- Counterexample to claim C3: starting from the calculator page (the
`Calculator` coordinator is mounted), a navigation to `contact` whose
content generation throws renders the home content, yet `currentPage`
stays `contact` and the active coordinator stays `Calculator`: displayed
content and active coordinator correspond to different page keys. -/
theorem navigateTo_failed_generation_mismatch :
    (navigateTo genFailContact "contact"
        (navigateTo genOk "calculator" initNavState)).doc.mainContent =
      generateHomePage ∧
    (navigateTo genFailContact "contact"
        (navigateTo genOk "calculator" initNavState)).currentPage = "contact" ∧
    (navigateTo genFailContact "contact"
        (navigateTo genOk "calculator" initNavState)).doc.coordinators =
      [Coordinator.calculatorC] := by
  refine ⟨?_, ?_, ?_⟩ <;> decide

/-- Claim C3 as amended: when content generation throws during a navigation
to a valid page, the failure is logged and the home page content is
rendered (spec-modelled `loadErrorPage`), but recovery does not restore
consistency: `currentPage` keeps the requested key and the previously
mounted coordinators stay active unchanged. -/
theorem navigateTo_failed_generation_fallback
    (gen : String → Except Unit String) (s : NavState) (page : String)
    (hv : isValidPage page = true) (hg : gen page = Except.error ()) :
    (navigateTo gen page s).doc.mainContent = generateHomePage ∧
    (navigateTo gen page s).currentPage = page ∧
    (navigateTo gen page s).doc.coordinators = s.doc.coordinators ∧
    (navigateTo gen page s).doc.errorLog =
      s.doc.errorLog ++ ["Error loading page content"] := by
  unfold navigateTo loadPageContent
  simp [hv, hg, loadErrorPage, updateActiveNav]

/-- Witness for C3 as amended, at the concrete failing generator and the
contact page. -/
theorem navigateTo_failed_generation_fallback_witness :
    isValidPage "contact" = true ∧
    genFailContact "contact" = Except.error () ∧
    ((navigateTo genFailContact "contact" initNavState).doc.mainContent =
        generateHomePage ∧
     (navigateTo genFailContact "contact" initNavState).currentPage = "contact" ∧
     (navigateTo genFailContact "contact" initNavState).doc.coordinators =
        initNavState.doc.coordinators ∧
     (navigateTo genFailContact "contact" initNavState).doc.errorLog =
        initNavState.doc.errorLog ++ ["Error loading page content"]) :=
  ⟨by decide, rfl,
   navigateTo_failed_generation_fallback genFailContact initNavState "contact"
     (by decide) rfl⟩

/-! ### Claim C4 -/

/-- Claim C4: for every validated input, `calculateSavings` returns the
diesel baseline `dieselCost * vehicleCount`, the per-model new monthly
cost, their difference as `monthlySavings`, and twelve times that as
`annualSavings`. -/
theorem calculateSavings_formula (i : CalcInputs) (h : validCalcInputs i) :
    (calculateSavings i).currentMonthlyCost = i.dieselCost * i.vehicleCount ∧
    (calculateSavings i).monthlySavings =
      (calculateSavings i).currentMonthlyCost -
        (calculateSavings i).newMonthlyCost ∧
    (calculateSavings i).annualSavings = 12 * (calculateSavings i).monthlySavings ∧
    (i.ppaModel = "exchange" →
      (calculateSavings i).newMonthlyCost = 120000 * i.vehicleCount) ∧
    (i.ppaModel = "traditional" →
      (calculateSavings i).newMonthlyCost =
        95000 * i.vehicleCount + 14 * i.monthlyKm * i.vehicleCount) ∧
    (i.ppaModel = "lease" →
      (calculateSavings i).newMonthlyCost = 175000 * i.vehicleCount) := by
  refine ⟨rfl, rfl, ?_, ?_, ?_, ?_⟩
  · have ha : (calculateSavings i).annualSavings =
        (calculateSavings i).monthlySavings * 12 := rfl
    rw [ha]
    ring
  · intro h1
    simp [calculateSavings, h1]
  · intro h1
    simp [calculateSavings, h1]
  · intro h1
    simp [calculateSavings, h1]

/-- Witness for C4 at the input of the claim:
`{dieselCost: 250000, monthlyKm: 2000, vehicleCount: 1, model: exchange}`
yields 250000, 120000, 130000 and 1560000. -/
theorem calculateSavings_formula_witness :
    validCalcInputs ⟨250000, 2000, 1, "exchange"⟩ ∧
    (calculateSavings ⟨250000, 2000, 1, "exchange"⟩).currentMonthlyCost = 250000 ∧
    (calculateSavings ⟨250000, 2000, 1, "exchange"⟩).newMonthlyCost = 120000 ∧
    (calculateSavings ⟨250000, 2000, 1, "exchange"⟩).monthlySavings = 130000 ∧
    (calculateSavings ⟨250000, 2000, 1, "exchange"⟩).annualSavings = 1560000 ∧
    ((calculateSavings ⟨250000, 2000, 1, "exchange"⟩).annualSavings =
      12 * (calculateSavings ⟨250000, 2000, 1, "exchange"⟩).monthlySavings) :=
  ⟨⟨by norm_num, by norm_num, by norm_num, by norm_num, by norm_num,
     by norm_num, Or.inl rfl⟩,
   by simp +decide [calculateSavings] <;> norm_num,
   by simp +decide [calculateSavings] <;> norm_num,
   by simp +decide [calculateSavings] <;> norm_num,
   by simp +decide [calculateSavings] <;> norm_num,
   (calculateSavings_formula ⟨250000, 2000, 1, "exchange"⟩
     ⟨by norm_num, by norm_num, by norm_num, by norm_num, by norm_num,
      by norm_num, Or.inl rfl⟩).2.2.1⟩

/-! ### Claim C5 -/

/-- Claim C5: for every validated input, whenever `monthlySavings` is
negative the percentage produced for display is clamped to 0 (the returned
`savingsPercent` is already 0 and `displayResults` shows
`max 0 savingsPercent`), while the returned `monthlySavings` itself is the
unclamped difference. -/
theorem savingsPercent_clamped_display (i : CalcInputs)
    (h : validCalcInputs i) :
    ((calculateSavings i).monthlySavings < 0 →
      (calculateSavings i).savingsPercent = 0 ∧
      displayedSavingsPercent (calculateSavings i) = 0) ∧
    (calculateSavings i).monthlySavings =
      (calculateSavings i).currentMonthlyCost -
        (calculateSavings i).newMonthlyCost := by
  refine ⟨?_, rfl⟩
  intro hneg
  have hp : (calculateSavings i).savingsPercent = 0 := by
    show (if (_ : ℚ) > 0 then _ else 0) = 0
    rw [if_neg]
    intro hpos
    exact absurd hneg (not_lt.mpr (le_of_lt hpos))
  refine ⟨hp, ?_⟩
  unfold displayedSavingsPercent
  rw [hp]
  simp

/-- Witness for C5 at the lease model with the cheapest diesel baseline:
the monthly savings are the negative value -125000 and the displayed
percentage is 0. -/
theorem savingsPercent_clamped_display_witness :
    validCalcInputs ⟨50000, 100, 1, "lease"⟩ ∧
    (calculateSavings ⟨50000, 100, 1, "lease"⟩).monthlySavings = -125000 ∧
    (calculateSavings ⟨50000, 100, 1, "lease"⟩).savingsPercent = 0 ∧
    displayedSavingsPercent (calculateSavings ⟨50000, 100, 1, "lease"⟩) = 0 :=
  ⟨⟨by norm_num, by norm_num, by norm_num, by norm_num, by norm_num,
     by norm_num, Or.inr (Or.inr rfl)⟩,
   by simp +decide [calculateSavings] <;> norm_num,
   (savingsPercent_clamped_display ⟨50000, 100, 1, "lease"⟩
     ⟨by norm_num, by norm_num, by norm_num, by norm_num, by norm_num,
      by norm_num, Or.inr (Or.inr rfl)⟩).1
     (by simp +decide [calculateSavings] <;> norm_num) |>.1,
   (savingsPercent_clamped_display ⟨50000, 100, 1, "lease"⟩
     ⟨by norm_num, by norm_num, by norm_num, by norm_num, by norm_num,
      by norm_num, Or.inr (Or.inr rfl)⟩).1
     (by simp +decide [calculateSavings] <;> norm_num) |>.2⟩

/-! ### Claim C6 -/

/-- Claim C6: starting with no entry for `k`, four `checkRateLimit("k", 3)`
calls within one 60-second window answer true, true, true, false; a later
call after the entry ages out of the window answers true again, and so does
a call on the store emptied by the periodic full clear. -/
theorem checkRateLimit_window_sequence :
    (checkRateLimit [] 0 "k" 3).1 = true ∧
    (checkRateLimit rlS1 1000 "k" 3).1 = true ∧
    (checkRateLimit rlS2 2000 "k" 3).1 = true ∧
    (checkRateLimit rlS3 3000 "k" 3).1 = false ∧
    (checkRateLimit rlS4 70000 "k" 3).1 = true ∧
    (checkRateLimit [] 70000 "k" 3).1 = true := by
  decide

/-! ### Claim C7 -/

/-- Counterexample to claim C7: a denied call can mutate the store.  With a
fresh entry for `k` at its limit and a stale entry for `j`, the call on `k`
is denied and still evicts the entry for `j`: the store after the call
differs from the store before it. -/
theorem checkRateLimit_denied_mutates_cex :
    (checkRateLimit [("k", ⟨3, 50000⟩), ("j", ⟨1, 0⟩)] 70000 "k" 3).1 = false ∧
    (checkRateLimit [("k", ⟨3, 50000⟩), ("j", ⟨1, 0⟩)] 70000 "k" 3).2 ≠
      [("k", ⟨3, 50000⟩), ("j", ⟨1, 0⟩)] := by
  decide

/-- Claim C7 as amended: when the swept store holds an entry for `key` whose
count is at or over the limit, the call returns false and the resulting
store is exactly the swept store — the only mutation of a denied call is
the eviction sweep that runs at the start of every call; in particular,
when no stored entry is stale the denied call leaves the store exactly
unchanged. -/
theorem checkRateLimit_denied_frame (store : RLStore) (now : Int)
    (key : String) (maxRequests : Nat) (e : RLEntry)
    (hl : rlLookup key (rlSweep now store) = some e)
    (hc : e.count ≥ maxRequests) :
    checkRateLimit store now key maxRequests = (false, rlSweep now store) ∧
    ((∀ x ∈ store, now - 60000 ≤ x.2.timestamp) →
      checkRateLimit store now key maxRequests = (false, store)) := by
  have h1 : checkRateLimit store now key maxRequests =
      (false, rlSweep now store) := by
    unfold checkRateLimit
    simp only [hl]
    simp [hc]
  refine ⟨h1, fun hall => ?_⟩
  have h2 : rlSweep now store = store := by
    unfold rlSweep
    rw [List.filter_eq_self]
    intro a ha
    simp only [Bool.not_eq_true', decide_eq_false_iff_not, not_lt]
    exact hall a ha
  rw [h1, h2]

/-- Witness for C7 as amended at a one-entry store with a fresh entry at the
limit. -/
theorem checkRateLimit_denied_frame_witness :
    rlLookup "k" (rlSweep 2000 [("k", ⟨3, 1000⟩)]) = some ⟨3, 1000⟩ ∧
    (⟨3, 1000⟩ : RLEntry).count ≥ 3 ∧
    (checkRateLimit [("k", ⟨3, 1000⟩)] 2000 "k" 3 =
        (false, rlSweep 2000 [("k", ⟨3, 1000⟩)]) ∧
     ((∀ x ∈ ([("k", ⟨3, 1000⟩)] : RLStore), (2000 : Int) - 60000 ≤ x.2.timestamp) →
       checkRateLimit [("k", ⟨3, 1000⟩)] 2000 "k" 3 = (false, [("k", ⟨3, 1000⟩)]))) :=
  ⟨by decide, by decide,
   checkRateLimit_denied_frame [("k", ⟨3, 1000⟩)] 2000 "k" 3 ⟨3, 1000⟩
     (by decide) (by decide)⟩

/-! ### Claim C10 -/

theorem rlLookup_sweep_none (now : Int) (key : String) (store : RLStore)
    (h : ∀ x ∈ store, x.1 = key → x.2.timestamp < now - 60000) :
    rlLookup key (rlSweep now store) = none := by
  induction store with
  | nil => rfl
  | cons a as ih =>
    have ihs := ih (fun x hx hxk => h x (List.mem_cons_of_mem a hx) hxk)
    unfold rlSweep at ihs ⊢
    rw [List.filter_cons]
    by_cases hold : a.2.timestamp < now - 60000
    · simpa [hold] using ihs
    · have hk : ¬ a.1 = key := fun hk => hold (h a (List.mem_cons_self a as) hk)
      simpa [hold, rlLookup, hk] using ihs

theorem rlLookup_append_single (key : String) (v : RLEntry) (l : RLStore)
    (h : rlLookup key l = none) :
    rlLookup key (l ++ [(key, v)]) = some v := by
  induction l with
  | nil => simp [rlLookup]
  | cons a as ih =>
    unfold rlLookup at h ⊢
    by_cases hk : a.1 = key
    · simp [hk] at h
    · simp only [hk, if_false, List.cons_append] at h ⊢
      exact ih h

theorem timestamp_mem_rlSweep (now : Int) (store : RLStore)
    (x : String × RLEntry) (h : x ∈ rlSweep now store) :
    now - 60000 ≤ x.2.timestamp := by
  unfold rlSweep at h
  have := List.of_mem_filter h
  simpa [not_lt] using this

/-- Claim C10: `checkRateLimit` evicts every entry more than 60 seconds
older than the call time at the start of the call, and an allowed call
stamps the entry with the call time; hence for a key all of whose stored
bindings are idle for more than 60 seconds, the call is allowed with its
count reset to 1 and timestamp refreshed to now, and every entry of the
resulting store is at most 60 seconds old. -/
theorem checkRateLimit_idle_resets (store : RLStore) (now : Int)
    (key : String) (maxRequests : Nat)
    (h : ∀ x ∈ store, x.1 = key → x.2.timestamp < now - 60000) :
    (checkRateLimit store now key maxRequests).1 = true ∧
    rlLookup key (checkRateLimit store now key maxRequests).2 = some ⟨1, now⟩ ∧
    ∀ x ∈ (checkRateLimit store now key maxRequests).2,
      now - 60000 ≤ x.2.timestamp := by
  have hnone := rlLookup_sweep_none now key store h
  have hck : checkRateLimit store now key maxRequests =
      (true, rlSweep now store ++ [(key, ⟨1, now⟩)]) := by
    unfold checkRateLimit
    simp only [hnone]
  rw [hck]
  refine ⟨rfl, rlLookup_append_single key ⟨1, now⟩ _ hnone, ?_⟩
  intro x hx
  rcases List.mem_append.mp hx with hx1 | hx2
  · exact timestamp_mem_rlSweep now store x hx1
  · have hx3 : x = (key, ⟨1, now⟩) := by simpa using hx2
    rw [hx3]
    show now - 60000 ≤ now
    omega

/-- Witness for C10: a key whose sole binding has count 5 but is 100
seconds old is allowed again with count 1 and a fresh timestamp. -/
theorem checkRateLimit_idle_resets_witness :
    (∀ x ∈ ([("k", ⟨5, 0⟩)] : RLStore), x.1 = "k" →
      x.2.timestamp < (100000 : Int) - 60000) ∧
    ((checkRateLimit [("k", ⟨5, 0⟩)] 100000 "k" 3).1 = true ∧
     rlLookup "k" (checkRateLimit [("k", ⟨5, 0⟩)] 100000 "k" 3).2 =
        some ⟨1, 100000⟩ ∧
     ∀ x ∈ (checkRateLimit [("k", ⟨5, 0⟩)] 100000 "k" 3).2,
        (100000 : Int) - 60000 ≤ x.2.timestamp) :=
  ⟨by decide,
   checkRateLimit_idle_resets [("k", ⟨5, 0⟩)] 100000 "k" 3 (by decide)⟩

/-! ### Claim C8 -/

/-- Counterexample to claim C8: `validatePhone` applied to the non-string
value 123 throws (it calls `.replace` on its argument before any type
check), instead of returning false. -/
theorem validatePhone_nonstring_throws_cex :
    validatePhone (JSValue.num 123) =
      Except.error "TypeError: phone.replace is not a function" := rfl

/-- Claim C8 as amended: `validateEmail`, `validateName` and
`sanitizeInput` never throw for any input, returning `false` respectively
`""` on malformed (non-string) input, and `validatePhone` never throws for
string input; but on every non-string input `validatePhone` throws a
`TypeError`. -/
theorem validators_never_throw_amended (v : JSValue) :
    (validateEmail v).isOk = true ∧
    (validateName v).isOk = true ∧
    (sanitizeInput v).isOk = true ∧
    (isStringValue v = true → (validatePhone v).isOk = true) ∧
    (isStringValue v = false →
      validatePhone v = Except.error "TypeError: phone.replace is not a function" ∧
      validateName v = Except.ok false ∧
      sanitizeInput v = Except.ok "") := by
  cases v <;>
    simp [validateEmail, validateName, sanitizeInput, validatePhone,
      isStringValue, Except.isOk, Except.toBool]

/-- Witness for C8 as amended at the concrete non-string input `null`. -/
theorem validators_never_throw_amended_witness :
    isStringValue JSValue.jsNull = false ∧
    validatePhone JSValue.jsNull =
      Except.error "TypeError: phone.replace is not a function" ∧
    validateName JSValue.jsNull = Except.ok false ∧
    sanitizeInput JSValue.jsNull = Except.ok "" :=
  ⟨rfl, (validators_never_throw_amended JSValue.jsNull).2.2.2.2 rfl⟩

/-! ### Claim C9 -/

/-- Claim C9: every submission attempt that reaches the loading state (the
rate limit passed and all fields validated) ends with the submit control
restored to its ready state — enabled, original text, loading indication
removed — on every exit path: success, transport failure, and any thrown
exception (both failure shapes land in the `catch`; the `finally` runs the
restore). -/
theorem handleFormSubmission_restores_button (rateLimitOk fieldsValid : Bool)
    (outcome : SubmitOutcome) (ui : FormUI)
    (h1 : rateLimitOk = true) (h2 : fieldsValid = true) :
    (handleFormSubmission rateLimitOk fieldsValid outcome ui).button.disabled = false ∧
    (handleFormSubmission rateLimitOk fieldsValid outcome ui).button.ariaDisabled = false ∧
    (handleFormSubmission rateLimitOk fieldsValid outcome ui).button.text = ui.button.text ∧
    (handleFormSubmission rateLimitOk fieldsValid outcome ui).button.loading = false := by
  subst h1
  subst h2
  cases outcome <;> simp [handleFormSubmission, setLoadingState]

/-- Witness for C9 at a transport failure on the contact form submit
control. -/
theorem handleFormSubmission_restores_button_witness :
    (handleFormSubmission true true (SubmitOutcome.failure "Network error")
      ⟨⟨false, false, "Get Free Premium Assessment", false⟩, none, false⟩).button.disabled = false ∧
    (handleFormSubmission true true (SubmitOutcome.failure "Network error")
      ⟨⟨false, false, "Get Free Premium Assessment", false⟩, none, false⟩).button.ariaDisabled = false ∧
    (handleFormSubmission true true (SubmitOutcome.failure "Network error")
      ⟨⟨false, false, "Get Free Premium Assessment", false⟩, none, false⟩).button.text =
      "Get Free Premium Assessment" ∧
    (handleFormSubmission true true (SubmitOutcome.failure "Network error")
      ⟨⟨false, false, "Get Free Premium Assessment", false⟩, none, false⟩).button.loading = false :=
  handleFormSubmission_restores_button true true (SubmitOutcome.failure "Network error")
    ⟨⟨false, false, "Get Free Premium Assessment", false⟩, none, false⟩ rfl rfl

end Elyra
